import Mathlib

/-!
Verification of the proxy-relay retrieval core of `proxium.py`.

The embedding models the pure/stateful behaviour of the retrieval
orchestrator `fetch_content_through_proxy`, the blacklist store
(`load_bad_servers` / `save_bad_servers`), and the content verifier
(line 166, using `DATA_VERIFIER` from line 38).  The browser is modelled
by a `World`: for each navigation round, the list of dropdown options the
page would offer, each paired with the page text that submitting the
target URL through that option would yield.  Python exceptions are
modelled with `Except`; the backing JSON file with `FileState`.

A central fact of the source: `DATA_VERIFIER = { "string to be checked" }`
(line 38) is a Python set (a brace display), and line 166 evaluates
`DATA_VERIFIER in current_content` where `current_content` is a str.
CPython's `str.__contains__` raises `TypeError` for a non-str left
operand, so the verification condition raises on every evaluation.  The
embedding keeps that semantics via `PyStrOrSet` and `pyInStr`.
-/

namespace Proxium

/-- Python exceptions the modelled code can raise: the `TypeError` from
`set in str` at line 166, and the `json.JSONDecodeError` that
`json.load` raises on malformed content at line 99. -/
inductive PyErr where
  | typeError
  | jsonDecodeError
deriving DecidableEq, Repr

/-- The blacklist: the JSON object mapping server codes to a failure
marker, modelled as an insertion-ordered association list, matching a
Python dict. -/
abbrev Blacklist := List (String × Nat)

/-- Python `key in bad_servers` (dict key membership, line 145). -/
def blMember (bad_servers : Blacklist) (key : String) : Bool :=
  bad_servers.any (fun p => p.1 == key)

/-- Python `bad_servers[server_code] = 1` (line 171): overwrite the value
if the key is present, otherwise append the new pair at the end. -/
def blInsert (bad_servers : Blacklist) (key : String) (v : Nat) : Blacklist :=
  if blMember bad_servers key then
    bad_servers.map (fun p => if p.1 == key then (key, v) else p)
  else bad_servers ++ [(key, v)]

/-- Boolean subset test between blacklists: every key of the first is a
key of the second. -/
def blSubsetB (a b : Blacklist) : Bool :=
  a.all (fun p => blMember b p.1)

/-- State of the blacklist backing file `bad_servers.json`: absent,
present but unreadable or not valid JSON, or a valid JSON object. -/
inductive FileState where
  | absent
  | malformed
  | valid (bad_servers : Blacklist)
deriving DecidableEq, Repr

/-- Translation of `load_bad_servers` (lines 95-104).  The `try` block
catches only `FileNotFoundError`; if the file exists but holds invalid
JSON, `json.load` raises a `JSONDecodeError` which propagates to the
caller.  An absent file yields the empty mapping via the `exists()`
branch. -/
def load_bad_servers : FileState → Except PyErr Blacklist
  | .absent => .ok []
  | .malformed => .error .jsonDecodeError
  | .valid bl => .ok bl

/-- The load operation with the store state threaded explicitly: the file
is opened read-only (line 98), so loading leaves the file unchanged. -/
def load_bad_servers_st (fs : FileState) : Except PyErr Blacklist × FileState :=
  (load_bad_servers fs, fs)

/-- Translation of `save_bad_servers` (lines 107-109): a full overwrite of
the backing file with the given mapping. -/
def save_bad_servers (bad_servers : Blacklist) (_fs : FileState) : FileState :=
  .valid bad_servers

/-- Boolean test that the first character list is an initial segment of
the second. -/
def charsStartWith : List Char → List Char → Bool
  | [], _ => true
  | _ :: _, [] => false
  | a :: as, b :: bs => a == b && charsStartWith as bs

/-- Boolean test that the first character list occurs contiguously inside
the second. -/
def charsInfixOf (needle : List Char) : List Char → Bool
  | [] => needle.isEmpty
  | b :: bs => charsStartWith needle (b :: bs) || charsInfixOf needle bs

/-- Python `needle in hay` for two strings: substring containment. -/
def pyStrContains (hay needle : String) : Bool :=
  charsInfixOf needle.toList hay.toList

/-- A Python value usable as the left operand of `in` against a str: a
str, or a set of strings.  `DATA_VERIFIER` at line 38 is written with a
brace display, so it is a one-element set. -/
inductive PyStrOrSet where
  | str (s : String)
  | set (elems : List String)
deriving DecidableEq, Repr

/-- Translation of `DATA_VERIFIER` (lines 38-40): a set holding the single
string "string to be checked". -/
def DATA_VERIFIER : PyStrOrSet :=
  .set ["string to be checked"]

/-- Python `x in s` where `s` is a str: substring containment when `x` is
a str, a `TypeError` otherwise (CPython `str.__contains__` requires a
string left operand). -/
def pyInStr (x : PyStrOrSet) (s : String) : Except PyErr Bool :=
  match x with
  | .str needle => .ok (pyStrContains s needle)
  | .set _ => .error .typeError

/-- Translation of the condition at line 166:
`DATA_VERIFIER in current_content or DATA_VERIFIER in current_content`,
with Python's short-circuit `or` (the second operand is evaluated only
when the first is falsy). -/
def verifierCond (current_content : String) : Except PyErr Bool :=
  match pyInStr DATA_VERIFIER current_content with
  | .error e => .error e
  | .ok a => if a then .ok a else pyInStr DATA_VERIFIER current_content

/-- A single occurrence of the same containment test, for comparison with
the duplicated condition of line 166. -/
def singleCheck (current_content : String) : Except PyErr Bool :=
  pyInStr DATA_VERIFIER current_content

/-- One option of the relay dropdown in one round: its data-value code and
the page text that submitting the target URL through it would yield. -/
abbrev Candidate := String × String

/-- Browser behaviour for one retrieval call: for each navigation round,
the enumerated dropdown options in page order.  Rounds beyond the list
enumerate no options. -/
abbrev World := List (List Candidate)

/-- Result of the inner candidate loop: the blacklist afterwards, the
codes clicked and submitted (in order), the codes that failed the
verification check, and how the loop exited: `ok none` means the loop ran
to completion, `ok (some c)` means it broke after a passed verification
with extracted text `c`, `error e` means a raised exception propagates. -/
structure CandResult where
  bad : Blacklist
  attempted : List String
  failed : List String
  exit : Except PyErr (Option String)
deriving Repr

/-- Translation of the candidate loop, lines 142-172: skip blacklisted
codes (lines 145-147); otherwise click the option, enter the URL, submit
(lines 149-158, modelled as recording the code as attempted), extract the
text and evaluate the verification condition (lines 160-166); on a passed
check set the content and break (lines 167-169); on a failed check add
the code to the blacklist and continue (lines 170-172); a raised
exception propagates out of the loop. -/
def runCandidates : List Candidate → Blacklist → CandResult
  | [], bad => ⟨bad, [], [], .ok none⟩
  | (server_code, text) :: rest, bad =>
    if blMember bad server_code then
      runCandidates rest bad
    else
      match verifierCond text with
      | .error e => ⟨bad, [server_code], [], .error e⟩
      | .ok true => ⟨bad, [server_code], [], .ok (some text)⟩
      | .ok false =>
        let r := runCandidates rest (blInsert bad server_code 1)
        ⟨r.bad, server_code :: r.attempted, server_code :: r.failed, r.exit⟩

/-- Result of the round loop: the blacklist afterwards, the attempted
codes grouped per round, the blacklist as it stood at each round's start,
all codes that failed verification, the number of navigations to the
entry page, and the outcome: `ok content` for a normal exit (content is
the empty string when the rounds were exhausted) or a propagating
exception. -/
structure RoundsResult where
  bad : Blacklist
  attemptedPerRound : List (List String)
  badStarts : List Blacklist
  failed : List String
  navs : Nat
  outcome : Except PyErr String
deriving Repr

/-- Translation of the round loop, lines 120-175: `for attempt in
range(5)` navigates to the entry page (line 122), enumerates the dropdown
options (lines 136-140) and runs the candidate loop; after the inner
loop, `if content: break` (lines 174-175) stops the rounds only when the
recorded content is non-empty. -/
def runRounds (world : World) : Nat → Nat → Blacklist → RoundsResult
  | 0, _, bad => ⟨bad, [], [], [], 0, .ok ""⟩
  | fuel + 1, idx, bad =>
    let elems := world.getD idx []
    let r := runCandidates elems bad
    match r.exit with
    | .error e => ⟨r.bad, [r.attempted], [bad], r.failed, 1, .error e⟩
    | .ok (some c) =>
      if c = "" then
        let rr := runRounds world fuel (idx + 1) r.bad
        ⟨rr.bad, r.attempted :: rr.attemptedPerRound, bad :: rr.badStarts,
          r.failed ++ rr.failed, rr.navs + 1, rr.outcome⟩
      else
        ⟨r.bad, [r.attempted], [bad], r.failed, 1, .ok c⟩
    | .ok none =>
      let rr := runRounds world fuel (idx + 1) r.bad
      ⟨rr.bad, r.attempted :: rr.attemptedPerRound, bad :: rr.badStarts,
        r.failed ++ rr.failed, rr.navs + 1, rr.outcome⟩

/-- Observable result of one retrieval call: the value returned to the
caller (or the exception that propagates), the backing file afterwards,
how many times `driver.quit()` ran, and the traces collected by the round
loop. -/
structure FetchResult where
  retval : Except PyErr String
  file : FileState
  quits : Nat
  attemptedPerRound : List (List String)
  badStarts : List Blacklist
  failedVerif : List String
  navs : Nat
deriving Repr

/-- The blacklist stored in a backing file, when the file is a valid JSON
object. -/
def fileBlacklist : FileState → Option Blacklist
  | .valid bl => some bl
  | _ => none

/-- Translation of `fetch_content_through_proxy` (lines 112-185).  The
driver is acquired (line 113) and the blacklist loaded (line 115) before
the `try` block begins at line 119, so an exception raised by the load
propagates without running the `finally` block: `quits = 0` on that path.
Inside the `try`, the round loop runs; if it ends with empty content,
`save_bad_servers` persists the blacklist (lines 177-178); the `finally`
block (lines 181-183) runs `driver.quit()` exactly once before a normal
return or exception propagation. -/
def fetch_content_through_proxy (world : World) (_target_url : String)
    (fs : FileState) : FetchResult :=
  match load_bad_servers fs with
  | .error e => ⟨.error e, fs, 0, [], [], [], 0⟩
  | .ok bad0 =>
    let r := runRounds world 5 0 bad0
    match r.outcome with
    | .error e => ⟨.error e, fs, 1, r.attemptedPerRound, r.badStarts, r.failed, r.navs⟩
    | .ok content =>
      if content = "" then
        ⟨.ok content, save_bad_servers r.bad fs, 1, r.attemptedPerRound,
          r.badStarts, r.failed, r.navs⟩
      else
        ⟨.ok content, fs, 1, r.attemptedPerRound, r.badStarts, r.failed, r.navs⟩

/-! ## Basic lemmas about the verifier and the candidate loop -/

/-- The condition at line 166 raises `TypeError` on every page text:
`DATA_VERIFIER` is a set, and `set in str` is a type error in Python. -/
theorem verifierCond_eq (t : String) : verifierCond t = .error .typeError := rfl

theorem runCandidates_nil (bad : Blacklist) :
    runCandidates [] bad = ⟨bad, [], [], .ok none⟩ := rfl

theorem runCandidates_cons (c t : String) (rest : List Candidate) (bad : Blacklist) :
    runCandidates ((c, t) :: rest) bad =
      if blMember bad c = true then runCandidates rest bad
      else ⟨bad, [c], [], .error .typeError⟩ := by
  cases h : blMember bad c <;> simp [runCandidates, h, verifierCond_eq]

theorem runCandidates_bad_eq (elems : List Candidate) (bad : Blacklist) :
    (runCandidates elems bad).bad = bad := by
  induction elems with
  | nil => rfl
  | cons hd rest ih =>
    obtain ⟨c, t⟩ := hd
    rw [runCandidates_cons]
    cases h : blMember bad c <;> simp [h, ih]

theorem runCandidates_failed_eq (elems : List Candidate) (bad : Blacklist) :
    (runCandidates elems bad).failed = [] := by
  induction elems with
  | nil => rfl
  | cons hd rest ih =>
    obtain ⟨c, t⟩ := hd
    rw [runCandidates_cons]
    cases h : blMember bad c <;> simp [h, ih]

theorem runCandidates_exit (elems : List Candidate) (bad : Blacklist) :
    (runCandidates elems bad).exit = .ok none ∨
    (runCandidates elems bad).exit = .error .typeError := by
  induction elems with
  | nil => exact Or.inl rfl
  | cons hd rest ih =>
    obtain ⟨c, t⟩ := hd
    rw [runCandidates_cons]
    cases h : blMember bad c <;> simp [h, ih]

theorem runCandidates_not_attempted (elems : List Candidate) (bad : Blacklist)
    (k : String) (hk : blMember bad k = true) :
    k ∉ (runCandidates elems bad).attempted := by
  induction elems with
  | nil => simp [runCandidates_nil]
  | cons hd rest ih =>
    obtain ⟨c, t⟩ := hd
    rw [runCandidates_cons]
    cases h : blMember bad c
    · simp only [Bool.false_eq_true, if_false]
      intro hmem
      rw [List.mem_singleton] at hmem
      rw [hmem] at hk
      rw [hk] at h
      cases h
    · simpa [h] using ih

theorem runCandidates_attempted_length (elems : List Candidate) (bad : Blacklist) :
    (runCandidates elems bad).attempted.length ≤
      (elems.filter (fun e => !(blMember bad e.1))).length := by
  induction elems with
  | nil => simp [runCandidates_nil]
  | cons hd rest ih =>
    obtain ⟨c, t⟩ := hd
    rw [runCandidates_cons]
    cases h : blMember bad c
    · simp only [Bool.false_eq_true, if_false, List.filter_cons]
      simp [h]
    · simp only [if_true, List.filter_cons]
      simpa [h] using ih

/-! ## Lemmas about the round loop -/

theorem runRounds_succ_error (world : World) (f idx : Nat) (bad : Blacklist)
    (hex : (runCandidates (world.getD idx []) bad).exit = .error .typeError) :
    runRounds world (f + 1) idx bad =
      ⟨(runCandidates (world.getD idx []) bad).bad,
        [(runCandidates (world.getD idx []) bad).attempted], [bad],
        (runCandidates (world.getD idx []) bad).failed, 1, .error .typeError⟩ := by
  simp only [runRounds, hex]

theorem runRounds_succ_none (world : World) (f idx : Nat) (bad : Blacklist)
    (hex : (runCandidates (world.getD idx []) bad).exit = .ok none) :
    runRounds world (f + 1) idx bad =
      ⟨(runRounds world f (idx + 1) (runCandidates (world.getD idx []) bad).bad).bad,
        (runCandidates (world.getD idx []) bad).attempted ::
          (runRounds world f (idx + 1)
            (runCandidates (world.getD idx []) bad).bad).attemptedPerRound,
        bad :: (runRounds world f (idx + 1)
          (runCandidates (world.getD idx []) bad).bad).badStarts,
        (runCandidates (world.getD idx []) bad).failed ++
          (runRounds world f (idx + 1) (runCandidates (world.getD idx []) bad).bad).failed,
        (runRounds world f (idx + 1) (runCandidates (world.getD idx []) bad).bad).navs + 1,
        (runRounds world f (idx + 1) (runCandidates (world.getD idx []) bad).bad).outcome⟩ := by
  simp only [runRounds, hex]

theorem runRounds_bad_eq (world : World) : ∀ (fuel idx : Nat) (bad : Blacklist),
    (runRounds world fuel idx bad).bad = bad := by
  intro fuel
  induction fuel with
  | zero => intro idx bad; rfl
  | succ f ih =>
    intro idx bad
    rcases runCandidates_exit (world.getD idx []) bad with hex | hex
    · rw [runRounds_succ_none world f idx bad hex]
      show (runRounds world f (idx + 1) (runCandidates (world.getD idx []) bad).bad).bad = bad
      rw [ih, runCandidates_bad_eq]
    · rw [runRounds_succ_error world f idx bad hex]
      exact runCandidates_bad_eq _ _

theorem runRounds_failed_eq (world : World) : ∀ (fuel idx : Nat) (bad : Blacklist),
    (runRounds world fuel idx bad).failed = [] := by
  intro fuel
  induction fuel with
  | zero => intro idx bad; rfl
  | succ f ih =>
    intro idx bad
    rcases runCandidates_exit (world.getD idx []) bad with hex | hex
    · rw [runRounds_succ_none world f idx bad hex]
      show (runCandidates (world.getD idx []) bad).failed ++
        (runRounds world f (idx + 1) (runCandidates (world.getD idx []) bad).bad).failed = []
      rw [ih, runCandidates_failed_eq, List.nil_append]
    · rw [runRounds_succ_error world f idx bad hex]
      exact runCandidates_failed_eq _ _

theorem runRounds_navs_le (world : World) : ∀ (fuel idx : Nat) (bad : Blacklist),
    (runRounds world fuel idx bad).navs ≤ fuel := by
  intro fuel
  induction fuel with
  | zero => intro idx bad; exact Nat.le_refl 0
  | succ f ih =>
    intro idx bad
    rcases runCandidates_exit (world.getD idx []) bad with hex | hex
    · rw [runRounds_succ_none world f idx bad hex]
      exact Nat.succ_le_succ (ih (idx + 1) _)
    · rw [runRounds_succ_error world f idx bad hex]
      exact Nat.succ_le_succ (Nat.zero_le f)

theorem runRounds_not_attempted (world : World) (k : String) :
    ∀ (fuel idx : Nat) (bad : Blacklist), blMember bad k = true →
      ∀ l ∈ (runRounds world fuel idx bad).attemptedPerRound, k ∉ l := by
  intro fuel
  induction fuel with
  | zero => intro idx bad _ l hl; simp [runRounds] at hl
  | succ f ih =>
    intro idx bad hk l hl
    rcases runCandidates_exit (world.getD idx []) bad with hex | hex
    · rw [runRounds_succ_none world f idx bad hex] at hl
      rcases List.mem_cons.mp hl with h | h
      · rw [h]; exact runCandidates_not_attempted _ _ _ hk
      · refine ih (idx + 1) ((runCandidates (world.getD idx []) bad).bad) ?_ l h
        rw [runCandidates_bad_eq]; exact hk
    · rw [runRounds_succ_error world f idx bad hex] at hl
      rw [List.mem_singleton.{0}] at hl
      rw [hl]; exact runCandidates_not_attempted _ _ _ hk

theorem runRounds_perRound_length (world : World) :
    ∀ (fuel idx : Nat) (bad : Blacklist) (i : Nat),
      ((runRounds world fuel idx bad).attemptedPerRound.getD i []).length ≤
        ((world.getD (idx + i) []).filter
          (fun e =>
            !(blMember ((runRounds world fuel idx bad).badStarts.getD i []) e.1))).length := by
  intro fuel
  induction fuel with
  | zero => intro idx bad i; simp [runRounds]
  | succ f ih =>
    intro idx bad i
    rcases runCandidates_exit (world.getD idx []) bad with hex | hex
    · rw [runRounds_succ_none world f idx bad hex]
      cases i with
      | zero =>
        simpa [List.getD_cons_zero] using
          runCandidates_attempted_length (world.getD idx []) bad
      | succ j =>
        have h := ih (idx + 1) ((runCandidates (world.getD idx []) bad).bad) j
        have hidx : idx + (j + 1) = (idx + 1) + j := by omega
        simp only [List.getD_cons_succ, hidx]
        exact h
    · rw [runRounds_succ_error world f idx bad hex]
      cases i with
      | zero =>
        simpa [List.getD_cons_zero] using
          runCandidates_attempted_length (world.getD idx []) bad
      | succ j => simp [List.getD_cons_succ]

/-! ## Lemmas about the whole retrieval call -/

/-- When the initial blacklist load succeeds, the call's traces are those
of the round loop, and `driver.quit()` runs exactly once. -/
theorem fetch_traces (world : World) (url : String) (fs : FileState)
    (bad0 : Blacklist) (hfs : load_bad_servers fs = .ok bad0) :
    (fetch_content_through_proxy world url fs).attemptedPerRound =
      (runRounds world 5 0 bad0).attemptedPerRound ∧
    (fetch_content_through_proxy world url fs).badStarts =
      (runRounds world 5 0 bad0).badStarts ∧
    (fetch_content_through_proxy world url fs).failedVerif =
      (runRounds world 5 0 bad0).failed ∧
    (fetch_content_through_proxy world url fs).navs =
      (runRounds world 5 0 bad0).navs ∧
    (fetch_content_through_proxy world url fs).quits = 1 := by
  simp only [fetch_content_through_proxy, hfs]
  cases ho : (runRounds world 5 0 bad0).outcome with
  | error e => exact ⟨rfl, rfl, rfl, rfl, rfl⟩
  | ok c =>
    dsimp only
    by_cases hc : c = ""
    · rw [if_pos hc]
      exact ⟨rfl, rfl, rfl, rfl, rfl⟩
    · rw [if_neg hc]
      exact ⟨rfl, rfl, rfl, rfl, rfl⟩

theorem blMember_of_mem (bl : Blacklist) (p : String × Nat) (hp : p ∈ bl) :
    blMember bl p.1 = true := by
  unfold blMember
  rw [List.any_eq_true]
  exact ⟨p, hp, beq_self_eq_true p.1⟩

theorem blSubsetB_refl (bl : Blacklist) : blSubsetB bl bl = true := by
  unfold blSubsetB
  rw [List.all_eq_true]
  intro p hp
  exact blMember_of_mem bl p hp

/-- When the load succeeds and the call returns the empty string (the
exhausted state), the backing file afterwards holds exactly the loaded
blacklist: the round loop cannot grow it, because the verification
condition raises before the failure branch that would add an entry. -/
theorem fetch_exhausted_file (world : World) (url : String) (fs : FileState)
    (bl0 : Blacklist) (hload : load_bad_servers fs = .ok bl0)
    (hex : (fetch_content_through_proxy world url fs).retval = .ok "") :
    (fetch_content_through_proxy world url fs).file = .valid bl0 := by
  revert hex
  simp only [fetch_content_through_proxy, hload]
  cases ho : (runRounds world 5 0 bl0).outcome with
  | error e => intro h; cases h
  | ok c =>
    dsimp only
    by_cases hc : c = ""
    · rw [if_pos hc]
      intro _
      show FileState.valid (runRounds world 5 0 bl0).bad = FileState.valid bl0
      rw [runRounds_bad_eq]
    · rw [if_neg hc]
      intro h
      injection h with h'
      exact absurd h' hc

/-! ## Claim theorems -/

/-- Claim C1 (evidence of the code bug): a retrieval call whose only
candidate yields a page text that does contain the configured reference
marker does not end in the succeeded state at all — it raises `TypeError`,
because `DATA_VERIFIER` (line 38) is a one-element set and `set in str`
(line 166) is a type error in Python.  The first conjunct shows the
marker string really is a substring of the page text, so the intended
verification would have passed. -/
theorem verification_raises_typeError_on_marker_page :
    pyStrContains ("abc string to be checked xyz") ("string to be checked") = true ∧
    (fetch_content_through_proxy [[("r1", "abc string to be checked xyz")]] "u"
        FileState.absent).retval = Except.error PyErr.typeError :=
  ⟨rfl, rfl⟩

/-- Claim C2: for every retrieval call that ends in the exhausted state
(`retval = ok ""`), the blacklist backing file after the call is a valid
mapping that is a superset of the blacklist loaded at the start, and it
contains an entry for every candidate that was attempted and failed
verification during the call. -/
theorem exhausted_run_persists_superset (world : World) (url : String)
    (fs : FileState) (bl0 : Blacklist)
    (hload : load_bad_servers fs = .ok bl0)
    (hex : (fetch_content_through_proxy world url fs).retval = .ok "") :
    (fileBlacklist (fetch_content_through_proxy world url fs).file).isSome = true ∧
    blSubsetB bl0
      ((fileBlacklist (fetch_content_through_proxy world url fs).file).getD []) = true ∧
    ((fetch_content_through_proxy world url fs).failedVerif.all
      (fun c => blMember
        ((fileBlacklist (fetch_content_through_proxy world url fs).file).getD []) c)) = true := by
  have hfile := fetch_exhausted_file world url fs bl0 hload hex
  have hfv : (fetch_content_through_proxy world url fs).failedVerif = [] := by
    obtain ⟨-, -, h, -, -⟩ := fetch_traces world url fs bl0 hload
    rw [h, runRounds_failed_eq]
  rw [hfile, hfv]
  exact ⟨rfl, blSubsetB_refl bl0, rfl⟩

/-- Witness for claim C2: a call whose only candidate is already
blacklisted ends exhausted, and the persisted file is the loaded
blacklist itself. -/
theorem exhausted_run_persists_superset_witness :
    (fileBlacklist (fetch_content_through_proxy [[("r1", "t")]] "w"
        (FileState.valid [("r1", 1)])).file).isSome = true ∧
    blSubsetB [("r1", 1)]
      ((fileBlacklist (fetch_content_through_proxy [[("r1", "t")]] "w"
        (FileState.valid [("r1", 1)])).file).getD []) = true ∧
    ((fetch_content_through_proxy [[("r1", "t")]] "w"
        (FileState.valid [("r1", 1)])).failedVerif.all
      (fun c => blMember
        ((fileBlacklist (fetch_content_through_proxy [[("r1", "t")]] "w"
          (FileState.valid [("r1", 1)])).file).getD []) c)) = true :=
  exhausted_run_persists_superset [[("r1", "t")]] "w" (FileState.valid [("r1", 1)])
    [("r1", 1)] rfl rfl

/-- Claim C3 (evidence of the code bug): in the spec's own success
scenario — the first candidate's text lacks the marker, the second's
contains it — the call does not end in the succeeded state with the
backing file untouched by a skipped save; it raises `TypeError` at the
very first verification (line 166), so the succeeded state, and with it
the success-path frame property, is unreachable.  The file stays
unchanged here only because the exception skips the save. -/
theorem success_scenario_raises_instead :
    (fetch_content_through_proxy
        [[("r1", "nothing here"), ("r2", "aa string to be checked bb")]] "u"
        (FileState.valid [("old", 1)])).retval = Except.error PyErr.typeError ∧
    (fetch_content_through_proxy
        [[("r1", "nothing here"), ("r2", "aa string to be checked bb")]] "u"
        (FileState.valid [("old", 1)])).file = FileState.valid [("old", 1)] :=
  ⟨rfl, rfl⟩

/-- Claim C4: for every retrieval call, an endpoint identifier present in
the blacklist loaded at the start of the call is never selected (clicked
and submitted) in any round: every per-round attempted list avoids it. -/
theorem loaded_blacklist_never_selected (world : World) (url : String)
    (fs : FileState) (bl0 : Blacklist) (k : String)
    (hload : load_bad_servers fs = .ok bl0)
    (hmem : blMember bl0 k = true) :
    ((fetch_content_through_proxy world url fs).attemptedPerRound.all
      (fun l => l.all (fun s => !(s == k)))) = true := by
  obtain ⟨hper, -, -, -, -⟩ := fetch_traces world url fs bl0 hload
  rw [hper, List.all_eq_true]
  intro l hl
  rw [List.all_eq_true]
  intro s hs
  have hnot := runRounds_not_attempted world k 5 0 bl0 hmem l hl
  have hne : s ≠ k := fun he => hnot (he ▸ hs)
  rw [Bool.not_eq_true', beq_eq_false_iff_ne]
  exact hne

/-- Witness for claim C4: with the code "bad" blacklisted on disk, a round
offering "bad" and "ok" never selects "bad". -/
theorem loaded_blacklist_never_selected_witness :
    ((fetch_content_through_proxy [[("bad", "x"), ("ok", "y")]] "u"
        (FileState.valid [("bad", 1)])).attemptedPerRound.all
      (fun l => l.all (fun s => !(s == "bad")))) = true :=
  loaded_blacklist_never_selected [[("bad", "x"), ("ok", "y")]] "u"
    (FileState.valid [("bad", 1)]) [("bad", 1)] "bad" rfl rfl

/-- Claim C5 counterexample: on a backing file with malformed (invalid
JSON) content, `load_bad_servers` does not return the empty blacklist —
the `JSONDecodeError` raised by `json.load` is not caught (only
`FileNotFoundError` is, lines 102-103) and propagates. -/
theorem load_malformed_raises :
    load_bad_servers FileState.malformed = Except.error PyErr.jsonDecodeError ∧
    load_bad_servers FileState.malformed ≠ Except.ok ([] : Blacklist) :=
  ⟨rfl, fun h => Except.noConfusion h⟩

/-- Claim C5 amended: `load_bad_servers` returns the empty blacklist when
the backing file is absent and the parsed mapping when it is valid, but
raises (rather than recovering) when the file content is malformed. -/
theorem load_error_handling :
    load_bad_servers FileState.absent = Except.ok ([] : Blacklist) ∧
    (∀ bl : Blacklist, load_bad_servers (FileState.valid bl) = Except.ok bl) ∧
    load_bad_servers FileState.malformed = Except.error PyErr.jsonDecodeError :=
  ⟨rfl, fun _ => rfl, rfl⟩

/-- Claim C6 counterexample: when the backing file is malformed, the
blacklist load at line 115 raises before the `try`/`finally` block is
entered, so `driver.quit()` never runs: the session is released zero
times, not exactly once. -/
theorem quit_skipped_on_malformed_load :
    (fetch_content_through_proxy [] "u" FileState.malformed).quits = 0 ∧
    (fetch_content_through_proxy [] "u" FileState.malformed).quits ≠ 1 :=
  ⟨rfl, by decide⟩

/-- Claim C6 amended: on every exit path on which the initial blacklist
load does not raise — success, exhaustion, or an exception raised inside
the guarded block — `driver.quit()` runs exactly once. -/
theorem quits_once_when_load_ok (world : World) (url : String) (fs : FileState)
    (bl0 : Blacklist) (hload : load_bad_servers fs = .ok bl0) :
    (fetch_content_through_proxy world url fs).quits = 1 :=
  (fetch_traces world url fs bl0 hload).2.2.2.2

/-- Witness for the amended claim C6. -/
theorem quits_once_when_load_ok_witness :
    (fetch_content_through_proxy [] "u" FileState.absent).quits = 1 :=
  quits_once_when_load_ok [] "u" FileState.absent [] rfl

/-- Claim C7: every retrieval call performs at most `5` navigation cycles
to the proxy entry page, and in each round it attempts at most as many
candidates as the round enumerated minus those filtered out as
blacklisted at that round's start; the embedding is a total function, so
the call terminates within these bounds. -/
theorem round_and_candidate_bounds (world : World) (url : String) (fs : FileState) :
    (fetch_content_through_proxy world url fs).navs ≤ 5 ∧
    ∀ i : Nat,
      ((fetch_content_through_proxy world url fs).attemptedPerRound.getD i []).length ≤
        ((world.getD i []).filter
          (fun e =>
            !(blMember
              ((fetch_content_through_proxy world url fs).badStarts.getD i []) e.1))).length := by
  cases hfs : load_bad_servers fs with
  | error e =>
    simp only [fetch_content_through_proxy, hfs]
    exact ⟨Nat.zero_le 5, fun i => Nat.zero_le _⟩
  | ok bad0 =>
    obtain ⟨hper, hbs, -, hnavs, -⟩ := fetch_traces world url fs bad0 hfs
    constructor
    · rw [hnavs]
      exact runRounds_navs_le world 5 0 bad0
    · intro i
      rw [hper, hbs]
      simpa using runRounds_perRound_length world 5 0 bad0 i

/-- Claim C8: the duplicated verification condition of line 166 (the same
containment test joined by a short-circuit `or`) returns the same result
as a single occurrence of that containment check, on every extracted page
text. -/
theorem tautological_or_equals_single_check (current_content : String) :
    verifierCond current_content = singleCheck current_content := rfl

/-- Claim C9: loading the blacklist leaves the store state unchanged, so
two loads with no intervening save yield identical mappings. -/
theorem load_twice_identical (fs : FileState) :
    (load_bad_servers_st fs).2 = fs ∧
    (load_bad_servers_st ((load_bad_servers_st fs).2)).1 = (load_bad_servers_st fs).1 :=
  ⟨rfl, rfl⟩

/-- Claim C10 (evidence of the code bug): a call with two rounds offering
the same marker-less candidate never records that candidate as having
failed verification — line 171 is unreachable because the verification
condition raises first — so the claimed skip-after-failure mechanism
never engages; the call raises `TypeError` instead. -/
theorem failed_endpoints_never_recorded :
    (fetch_content_through_proxy [[("r1", "junk")], [("r1", "junk")]] "u"
        FileState.absent).failedVerif = [] ∧
    (fetch_content_through_proxy [[("r1", "junk")], [("r1", "junk")]] "u"
        FileState.absent).retval = Except.error PyErr.typeError :=
  ⟨rfl, rfl⟩

end Proxium
